import Mathlib

/-
Shallow embedding of the go-circle CircleCI API client (package circle,
file src/unnamed/part_000) and proofs about its request construction,
error handling and state behaviour.

The Go program is a flat typed HTTP client: one method per remote
endpoint, each building a URL from a fixed host, a versioned prefix,
positionally substituted path parameters and a circle-token query
parameter, issuing a single HTTP request through the stored transport
handle, and decoding the JSON response body into a statically shaped
result structure.

Modelling conventions:
- Go string / int / bool become String / Int / Bool.
- Go interface{} (an arbitrary decoded JSON value, nil when absent)
  becomes GoAny := Option Json.
- Go slices become GoSlice, which distinguishes the nil slice from an
  allocated empty slice, mirroring Go (var s []T versus make([]T, 0)).
- Go maps become GoMap := Option (List (String × _)), none being the
  nil map.
- The effectful environment (http.NewRequest URL validation, the
  transport round trip c.http.Do, and json Decode into each result
  shape) is an explicit record of oracles, HttpEnv.  Each operation is
  a pure function of the client, the environment and its arguments,
  returning the Go (result, err) pair together with a trace of the
  externally visible HTTP events it performed.
-/

/- Errors returned by the environment (Go error values); the client
code never constructs one itself, it only propagates them. -/
abbrev GoError := String

/- A decoded JSON value, standing in for Go interface{} contents. -/
inductive Json where
  | null : Json
  | bool : Bool → Json
  | num : Int → Json
  | str : String → Json
  | arr : List Json → Json
  | obj : List (String × Json) → Json

/- Go interface{}: nil (none) or some decoded JSON value. -/
abbrev GoAny := Option Json

/- A Go slice: nil, or an allocated backing list.  Go distinguishes a
nil slice from an allocated empty slice; the client code returns
make([]T, 0) on every failure path of a slice-valued operation. -/
inductive GoSlice (α : Type) where
  | nil : GoSlice α
  | mk : List α → GoSlice α

/- Length of a Go slice (len of a nil slice is 0). -/
def GoSlice.length {α : Type} : GoSlice α → Nat
  | GoSlice.nil => 0
  | GoSlice.mk l => l.length

/- Whether the slice is the nil slice (Go s == nil). -/
def GoSlice.isNil {α : Type} : GoSlice α → Bool
  | GoSlice.nil => true
  | GoSlice.mk _ => false

/- A Go map[string]T: nil map (none) or an association list. -/
abbrev GoMap (α : Type) := Option (List (String × α))

/- Value stored for each followed project inside Me.Projects. -/
structure MeProjectInfo where
  Emails : String
  OnDashboard : Bool

/- Information about the authenticated user (Go struct Me). -/
structure Me where
  Admin : Bool
  Emails : GoSlice String
  AvatarURL : String
  BasicEmailPrefs : String
  Containers : Int
  CreatedAt : String
  DaysLeftInTrial : Int
  DevAdmin : Bool
  GithubID : Int
  GithubOauthScopes : GoSlice String
  GravatarID : GoAny
  HerokuAPIKey : GoAny
  LastViewedChangelog : String
  Login : String
  Name : String
  Parallelism : Int
  Plan : GoAny
  Projects : GoMap MeProjectInfo
  SelectedEmail : String
  SignInCount : Int
  TrialEnd : String

/- The Go zero value Me{}. -/
def Me.zero : Me :=
  { Admin := false, Emails := GoSlice.nil, AvatarURL := "",
    BasicEmailPrefs := "", Containers := 0, CreatedAt := "",
    DaysLeftInTrial := 0, DevAdmin := false, GithubID := 0,
    GithubOauthScopes := GoSlice.nil, GravatarID := none,
    HerokuAPIKey := none, LastViewedChangelog := "", Login := "",
    Name := "", Parallelism := 0, Plan := none, Projects := none,
    SelectedEmail := "", SignInCount := 0, TrialEnd := "" }

/- The anonymous aws sub-struct of Project. -/
structure ProjectAWS where
  KeyPair : GoAny

/- Value stored for each branch inside Project.Branches. -/
structure ProjectBranchInfo where
  AddedAt : String
  BuildNum : Int
  Outcome : String
  PushedAt : String
  Status : String
  VcsRevision : String

/- Information about a project (Go struct Project). -/
structure Project where
  AWS : ProjectAWS
  Branches : GoMap ProjectBranchInfo
  CampfireNotifyPrefs : GoAny
  CampfireRoom : GoAny
  CampfireSubdomain : GoAny
  CampfireToken : GoAny
  Compile : String
  DefaultBranch : String
  Dependencies : String
  Extra : String
  FeatureFlags : GoMap Bool
  FlowdockAPIToken : GoAny
  Followed : Bool
  HasUsableKey : Bool
  HerokuDeployUser : GoAny
  HipChatAPIToken : GoAny
  HipChatNotify : GoAny
  HipChatNotifyPrefs : GoAny
  HipChatRoom : GoAny
  IRCChannel : GoAny
  IRCKeyword : GoAny
  IRCNotifyPrefs : GoAny
  IRCPassword : GoAny
  IRCServer : GoAny
  IRCUsername : GoAny
  Parallel : Int
  Reponame : String
  Scopes : GoSlice String
  Setup : String
  SlackAPIToken : GoAny
  SlackChannel : GoAny
  SlackNotifyPrefs : GoAny
  SlackSubdomain : GoAny
  SlackWebhookURL : String
  SSHKeys : GoSlice GoAny
  Test : String
  Username : String
  VCSURL : String

/- One entry of BuildSummary.CommitDetails (all_commit_details). -/
structure CommitDetail where
  AuthorDate : String
  AuthorEmail : String
  AuthorLogin : String
  AuthorName : String
  Body : String
  Branch : String
  Commit : String
  CommitURL : String
  CommitterDate : String
  CommitterEmail : String
  CommitterLogin : String
  CommitterName : String
  Subject : String

/- The circle_yml sub-struct of BuildSummary. -/
structure CircleYml where
  String : String

/- The empty feature_flags struct of BuildSummary. -/
structure BuildFeatureFlags where

/- One entry of BuildSummary.Node. -/
structure NodeInfo where
  ImageID : String
  Port : Int
  PublicIPAddr : String
  SSHEnabled : GoAny
  Username : String

/- The previous / previous_successful_build sub-struct of BuildSummary. -/
structure PreviousBuild where
  BuildNum : Int
  BuildTimeMillis : Int
  Status : String

/- The user sub-struct of BuildSummary. -/
structure BuildUser where
  Email : String
  IsUser : Bool
  Login : String
  Name : String

/- Summary of a build (Go struct BuildSummary). -/
structure BuildSummary where
  CommitDetails : GoSlice CommitDetail
  AuthorDate : String
  AuthorEmail : String
  AuthorName : String
  Body : String
  Branch : String
  BuildNum : Int
  BuildParameters : GoAny
  BuildTimeMillis : Int
  BuildURL : String
  Canceled : Bool
  Canceler : GoAny
  CircleYml : CircleYml
  CommitterDate : String
  CommitterEmail : String
  CommitterName : String
  Compare : String
  DontBuild : GoAny
  Failed : GoAny
  FeatureFlags : BuildFeatureFlags
  HasArtifacts : Bool
  InfrastructureFail : Bool
  IsFirstGreenBuild : Bool
  JobName : GoAny
  Lifecycle : String
  Messages : GoSlice GoAny
  Node : GoSlice NodeInfo
  Oss : Bool
  Outcome : String
  Parallel : Int
  Previous : PreviousBuild
  PreviousSuccessfulBuild : PreviousBuild
  QueuedAt : String
  Reponame : String
  Retries : GoAny
  RetryOf : Int
  SSHEnabled : GoAny
  SSHUsers : GoSlice GoAny
  StartTime : String
  Status : String
  StopTime : String
  Subject : String
  Timedout : Bool
  UsageQueuedAt : String
  User : BuildUser
  Username : String
  VCSRevision : String
  VCSURL : String
  Why : String

/- The Go zero value BuildSummary{}. -/
def BuildSummary.zero : BuildSummary :=
  { CommitDetails := GoSlice.nil, AuthorDate := "", AuthorEmail := "",
    AuthorName := "", Body := "", Branch := "", BuildNum := 0,
    BuildParameters := none, BuildTimeMillis := 0, BuildURL := "",
    Canceled := false, Canceler := none, CircleYml := { String := "" },
    CommitterDate := "", CommitterEmail := "", CommitterName := "",
    Compare := "", DontBuild := none, Failed := none,
    FeatureFlags := {}, HasArtifacts := false,
    InfrastructureFail := false, IsFirstGreenBuild := false,
    JobName := none, Lifecycle := "", Messages := GoSlice.nil,
    Node := GoSlice.nil, Oss := false, Outcome := "", Parallel := 0,
    Previous := { BuildNum := 0, BuildTimeMillis := 0, Status := "" },
    PreviousSuccessfulBuild :=
      { BuildNum := 0, BuildTimeMillis := 0, Status := "" },
    QueuedAt := "", Reponame := "", Retries := none, RetryOf := 0,
    SSHEnabled := none, SSHUsers := GoSlice.nil, StartTime := "",
    Status := "", StopTime := "", Subject := "", Timedout := false,
    UsageQueuedAt := "",
    User := { Email := "", IsUser := false, Login := "", Name := "" },
    Username := "", VCSRevision := "", VCSURL := "", Why := "" }

/- One action of a step of DetailedBuildSummary. -/
structure StepAction where
  BashCommand : GoAny
  Canceled : GoAny
  Command : String
  Continue : GoAny
  EndTime : String
  ExitCode : GoAny
  Failed : GoAny
  HasOutput : Bool
  Index : Int
  InfrastructureFail : GoAny
  Messages : GoSlice GoAny
  Name : String
  Parallel : Bool
  RunTimeMillis : Int
  StartTime : String
  Status : String
  Step : Int
  Timedout : GoAny
  Truncated : Bool
  «Type» : String

/- One step of DetailedBuildSummary. -/
structure Step where
  Actions : GoSlice StepAction
  Name : String

/- Detailed summary of a build: Go struct DetailedBuildSummary,
embedding BuildSummary. -/
structure DetailedBuildSummary extends BuildSummary where
  Owners : GoSlice String
  PullRequestUrls : GoSlice GoAny
  Steps : GoSlice Step

/- The Go zero value DetailedBuildSummary{}. -/
def DetailedBuildSummary.zero : DetailedBuildSummary :=
  { BuildSummary.zero with
    Owners := GoSlice.nil, PullRequestUrls := GoSlice.nil,
    Steps := GoSlice.nil }

/- Artifact created by a build (Go struct Artifact). -/
structure Artifact where
  NodeIndex : Int
  Path : String
  PrettyPath : String
  URL : String

/- The previous sub-struct of Build. -/
structure BuildPrevious where
  BuildNum : Int
  Status : String

/- Information about a build returned by the trigger, retry and cancel
actions (Go struct Build). -/
structure Build where
  Body : String
  Branch : String
  BuildNum : Int
  BuildTimeMillis : Int
  BuildURL : String
  CommitterEmail : String
  CommitterName : String
  DontBuild : String
  Lifecycle : String
  Outcome : GoAny
  Previous : BuildPrevious
  QueuedAt : String
  Reponame : String
  RetryOf : Int
  StartTime : String
  Status : String
  StopTime : String
  Subject : String
  Username : String
  VCSRevision : String
  VCSURL : String
  Why : String

/- The Go zero value Build{}. -/
def Build.zero : Build :=
  { Body := "", Branch := "", BuildNum := 0, BuildTimeMillis := 0,
    BuildURL := "", CommitterEmail := "", CommitterName := "",
    DontBuild := "", Lifecycle := "", Outcome := none,
    Previous := { BuildNum := 0, Status := "" }, QueuedAt := "",
    Reponame := "", RetryOf := 0, StartTime := "", Status := "",
    StopTime := "", Subject := "", Username := "", VCSRevision := "",
    VCSURL := "", Why := "" }

/- Response type indicating the status of clearing the cache. -/
structure ClearCacheResponse where
  Status : String

/- The Go zero value ClearCacheResponse{}. -/
def ClearCacheResponse.zero : ClearCacheResponse :=
  { Status := "" }

/- Optional query refinements of RecentBuildsForProjectBranch; the
Go fields are pointers, nil meaning unset. -/
structure RecentBuildsOptions where
  Limit : Option Int
  Offset : Option Int
  Filter : Option String

/- An HTTP request as the client builds it: http.NewRequest(method,
url, nil) yields a request with the given method and raw URL, an empty
header map and no body. -/
structure Request where
  Method : String
  URL : String
  Header : List (String × String)
  Body : Option String

/- An HTTP response: the status code and the response body.  The
client code never looks at any other part of the response. -/
structure Response where
  StatusCode : Int
  Body : String

/- Header.Set(k, v) replaces any existing values of the key by the
single value v. -/
def headerSet (h : List (String × String)) (k v : String) :
    List (String × String) :=
  (h.filter (fun p => p.1 ≠ k)) ++ [(k, v)]

/- Externally visible HTTP events performed by an operation: sending a
request through the transport (c.http.Do), and reading a response body
into the JSON decoder. -/
inductive Event where
  | sent : Request → Event
  | readBody : String → Event

/- The requests an event trace actually sent through the transport. -/
def sentRequests : List Event → List Request
  | [] => []
  | Event.sent r :: rest => r :: sentRequests rest
  | Event.readBody _ :: rest => sentRequests rest

/- The effectful environment of the client, as oracles:
- buildErr models the URL and method validation done by
  http.NewRequest (some e meaning NewRequest(method, url, nil) fails
  with e);
- doResp models the transport round trip handle.Do(request), either a
  transport error or a response;
- the dec fields model json.NewDecoder(body).Decode(&v) into each of
  the seven result shapes: the final contents of v (possibly partially
  populated when decoding fails) together with the error. -/
structure HttpEnv where
  buildErr : String → String → Option GoError
  doResp : Nat → Request → GoError ⊕ Response
  decMe : String → Me × Option GoError
  decProjects : String → GoSlice Project × Option GoError
  decBuildSummaries : String → GoSlice BuildSummary × Option GoError
  decDetailed : String → DetailedBuildSummary × Option GoError
  decArtifacts : String → GoSlice Artifact × Option GoError
  decBuild : String → Build × Option GoError
  decClearCache : String → ClearCacheResponse × Option GoError

/- The client struct: the token and the HTTP transport handle, both
set at construction.  The transport handle is modelled as an opaque
numeric identifier; its behaviour lives in HttpEnv.doResp. -/
structure client where
  token : String
  http : Nat

/- The handle identifier standing for Go http.DefaultClient. -/
def defaultHTTPClient : Nat := 0

/- New returns a client for the given token, using the default
transport handle. -/
def New (token : String) : client :=
  { token := token, http := defaultHTTPClient }

/- The Go method endpoint: Sprintf of
https://circleci.com/api/v1%s?circle-token=%s with the endpoint path
and the stored token. -/
def client.endpoint (c : client) (endpoint : String) : String :=
  "https://circleci.com/api/v1" ++ endpoint ++ "?circle-token=" ++ c.token

/- The request every method hands to the transport when
http.NewRequest succeeds: the request http.NewRequest(method, url,
nil) yields (empty header map, no body), after the one header
mutation request.Header.Set of Accept to application/json. -/
def mkReq (method url : String) : Request :=
  let request : Request :=
    { Method := method, URL := url, Header := [], Body := none }
  { request with
    Header := headerSet request.Header "Accept" "application/json" }

/- The request/decode body shared verbatim by all eleven Go methods:
build the request with http.NewRequest(method, url, nil) (returning
onErr and the error when that fails), set the Accept header to
application/json, send it once through the transport (returning onErr
and the error on transport failure), and otherwise decode the response
body (returning onErr and the error on decode failure, and the decoded
value otherwise).  onErr is the value each method returns on its error
paths: the zero value of its result struct, or make([]T, 0) for the
slice-valued methods. -/
def exchange {α : Type} (env : HttpEnv) (handle : Nat)
    (method url : String) (onErr : α)
    (dec : String → α × Option GoError) :
    (α × Option GoError) × List Event :=
  match env.buildErr method url with
  | some e => ((onErr, some e), [])
  | none =>
    match env.doResp handle (mkReq method url) with
    | Sum.inl e => ((onErr, some e), [Event.sent (mkReq method url)])
    | Sum.inr response =>
      match dec response.Body with
      | (_, some e) =>
        ((onErr, some e),
         [Event.sent (mkReq method url), Event.readBody response.Body])
      | (v, none) =>
        ((v, none),
         [Event.sent (mkReq method url), Event.readBody response.Body])

/- URL built by the Me method. -/
def client.meURL (c : client) : String :=
  c.endpoint "/me"

/- URL built by the Projects method. -/
def client.projectsURL (c : client) : String :=
  c.endpoint "/projects"

/- URL built by the RecentBuilds method. -/
def client.recentBuildsURL (c : client) : String :=
  c.endpoint "/recent-builds"

/- URL built by the RecentBuildsForProject method: Sprintf of
/project/%s/%s with username and project. -/
def client.recentBuildsForProjectURL (c : client)
    (username project : String) : String :=
  c.endpoint ("/project/" ++ username ++ "/" ++ project)

/- URL built by the RecentBuildsForProjectBranch method: Sprintf of
/project/%s/%s/tree/%s, then each of limit, offset and filter appended
in turn, only when its pointer is non-nil. -/
def client.recentBuildsForProjectBranchURL (c : client)
    (username project branch : String)
    (options : RecentBuildsOptions) : String :=
  let url := c.endpoint
    ("/project/" ++ username ++ "/" ++ project ++ "/tree/" ++ branch)
  let url := match options.Limit with
    | some l => url ++ "&limit=" ++ Int.repr l
    | none => url
  let url := match options.Offset with
    | some o => url ++ "&offset=" ++ Int.repr o
    | none => url
  let url := match options.Filter with
    | some f => url ++ "&filter=" ++ f
    | none => url
  url

/- URL built by the BuildSummary method: Sprintf of
/project/%s/%s/%d. -/
def client.buildSummaryURL (c : client) (username project : String)
    (num : Int) : String :=
  c.endpoint
    ("/project/" ++ username ++ "/" ++ project ++ "/" ++ Int.repr num)

/- URL built by the Artifacts method: Sprintf of
/project/%s/%s/%d/artifacts. -/
def client.artifactsURL (c : client) (username project : String)
    (num : Int) : String :=
  c.endpoint
    ("/project/" ++ username ++ "/" ++ project ++ "/" ++ Int.repr num
      ++ "/artifacts")

/- URL built by the Retry method: Sprintf of
/project/%s/%s/%d/retry. -/
def client.retryURL (c : client) (username project : String)
    (num : Int) : String :=
  c.endpoint
    ("/project/" ++ username ++ "/" ++ project ++ "/" ++ Int.repr num
      ++ "/retry")

/- URL built by the Cancel method: Sprintf of
/project/%s/%s/%d/cancel. -/
def client.cancelURL (c : client) (username project : String)
    (num : Int) : String :=
  c.endpoint
    ("/project/" ++ username ++ "/" ++ project ++ "/" ++ Int.repr num
      ++ "/cancel")

/- URL built by the Build method: Sprintf of
/project/%s/%s/tree/%s. -/
def client.buildURL (c : client) (username project branch : String) :
    String :=
  c.endpoint
    ("/project/" ++ username ++ "/" ++ project ++ "/tree/" ++ branch)

/- URL built by the ClearCache method: Sprintf of
/project/%s/%s/build-cache. -/
def client.clearCacheURL (c : client) (username project : String) :
    String :=
  c.endpoint ("/project/" ++ username ++ "/" ++ project ++ "/build-cache")

/- GET https://circleci.com/api/v1/me. -/
def client.Me (c : client) (env : HttpEnv) :
    (Me × Option GoError) × List Event :=
  exchange env c.http "GET" c.meURL Me.zero env.decMe

/- GET https://circleci.com/api/v1/projects; every error path returns
make([]Project, 0). -/
def client.Projects (c : client) (env : HttpEnv) :
    (GoSlice Project × Option GoError) × List Event :=
  exchange env c.http "GET" c.projectsURL (GoSlice.mk []) env.decProjects

/- GET https://circleci.com/api/v1/recent-builds; every error path
returns make([]BuildSummary, 0). -/
def client.RecentBuilds (c : client) (env : HttpEnv) :
    (GoSlice BuildSummary × Option GoError) × List Event :=
  exchange env c.http "GET" c.recentBuildsURL (GoSlice.mk [])
    env.decBuildSummaries

/- GET https://circleci.com/api/v1/project/{username}/{project}. -/
def client.RecentBuildsForProject (c : client) (env : HttpEnv)
    (username project : String) :
    (GoSlice BuildSummary × Option GoError) × List Event :=
  exchange env c.http "GET"
    (c.recentBuildsForProjectURL username project) (GoSlice.mk [])
    env.decBuildSummaries

/- GET
https://circleci.com/api/v1/project/{username}/{project}/tree/{branch}
with the optional limit, offset and filter query parameters. -/
def client.RecentBuildsForProjectBranch (c : client) (env : HttpEnv)
    (username project branch : String)
    (options : RecentBuildsOptions) :
    (GoSlice BuildSummary × Option GoError) × List Event :=
  exchange env c.http "GET"
    (c.recentBuildsForProjectBranchURL username project branch options)
    (GoSlice.mk []) env.decBuildSummaries

/- GET https://circleci.com/api/v1/project/{username}/{project}/{num}. -/
def client.BuildSummary (c : client) (env : HttpEnv)
    (username project : String) (num : Int) :
    (DetailedBuildSummary × Option GoError) × List Event :=
  exchange env c.http "GET" (c.buildSummaryURL username project num)
    DetailedBuildSummary.zero env.decDetailed

/- GET
https://circleci.com/api/v1/project/{username}/{project}/{num}/artifacts. -/
def client.Artifacts (c : client) (env : HttpEnv)
    (username project : String) (num : Int) :
    (GoSlice Artifact × Option GoError) × List Event :=
  exchange env c.http "GET" (c.artifactsURL username project num)
    (GoSlice.mk []) env.decArtifacts

/- POST
https://circleci.com/api/v1/project/{username}/{project}/{num}/retry. -/
def client.Retry (c : client) (env : HttpEnv)
    (username project : String) (num : Int) :
    (Build × Option GoError) × List Event :=
  exchange env c.http "POST" (c.retryURL username project num)
    Build.zero env.decBuild

/- POST
https://circleci.com/api/v1/project/{username}/{project}/{num}/cancel. -/
def client.Cancel (c : client) (env : HttpEnv)
    (username project : String) (num : Int) :
    (Build × Option GoError) × List Event :=
  exchange env c.http "POST" (c.cancelURL username project num)
    Build.zero env.decBuild

/- POST
https://circleci.com/api/v1/project/{username}/{project}/tree/{branch}. -/
def client.Build (c : client) (env : HttpEnv)
    (username project branch : String) :
    (Build × Option GoError) × List Event :=
  exchange env c.http "POST" (c.buildURL username project branch)
    Build.zero env.decBuild

/- DELETE
https://circleci.com/api/v1/project/{username}/{project}/build-cache. -/
def client.ClearCache (c : client) (env : HttpEnv)
    (username project : String) :
    (ClearCacheResponse × Option GoError) × List Event :=
  exchange env c.http "DELETE" (c.clearCacheURL username project)
    ClearCacheResponse.zero env.decClearCache

/- One call of the client interface: the operation together with its
path arguments. -/
inductive OpCall where
  | me : OpCall
  | projects : OpCall
  | recentBuilds : OpCall
  | recentBuildsForProject : String → String → OpCall
  | recentBuildsForProjectBranch :
      String → String → String → RecentBuildsOptions → OpCall
  | buildSummary : String → String → Int → OpCall
  | artifacts : String → String → Int → OpCall
  | retry : String → String → Int → OpCall
  | cancel : String → String → Int → OpCall
  | build : String → String → String → OpCall
  | clearCache : String → String → OpCall

/- A result value of any of the eleven operations, tagged by its
shape. -/
inductive OpResult where
  | me : Me → OpResult
  | projects : GoSlice Project → OpResult
  | builds : GoSlice BuildSummary → OpResult
  | detailed : DetailedBuildSummary → OpResult
  | artifacts : GoSlice Artifact → OpResult
  | build : Build → OpResult
  | clearCache : ClearCacheResponse → OpResult

/- Tags an operation output with its OpResult constructor. -/
def wrapResult {α : Type} (f : α → OpResult)
    (r : (α × Option GoError) × List Event) :
    (OpResult × Option GoError) × List Event :=
  ((f r.1.1, r.1.2), r.2)

/- Runs one client operation, dispatching to the method embeddings. -/
def runOp (c : client) (env : HttpEnv) :
    OpCall → (OpResult × Option GoError) × List Event
  | OpCall.me => wrapResult OpResult.me (client.Me c env)
  | OpCall.projects => wrapResult OpResult.projects (client.Projects c env)
  | OpCall.recentBuilds =>
      wrapResult OpResult.builds (client.RecentBuilds c env)
  | OpCall.recentBuildsForProject u p =>
      wrapResult OpResult.builds (client.RecentBuildsForProject c env u p)
  | OpCall.recentBuildsForProjectBranch u p b o =>
      wrapResult OpResult.builds
        (client.RecentBuildsForProjectBranch c env u p b o)
  | OpCall.buildSummary u p n =>
      wrapResult OpResult.detailed (client.BuildSummary c env u p n)
  | OpCall.artifacts u p n =>
      wrapResult OpResult.artifacts (client.Artifacts c env u p n)
  | OpCall.retry u p n =>
      wrapResult OpResult.build (client.Retry c env u p n)
  | OpCall.cancel u p n =>
      wrapResult OpResult.build (client.Cancel c env u p n)
  | OpCall.build u p b =>
      wrapResult OpResult.build (client.Build c env u p b)
  | OpCall.clearCache u p =>
      wrapResult OpResult.clearCache (client.ClearCache c env u p)

/- The fixed HTTP verb of each operation, as the Go source passes it
to http.NewRequest. -/
def verbOf : OpCall → String
  | OpCall.me => "GET"
  | OpCall.projects => "GET"
  | OpCall.recentBuilds => "GET"
  | OpCall.recentBuildsForProject _ _ => "GET"
  | OpCall.recentBuildsForProjectBranch _ _ _ _ => "GET"
  | OpCall.buildSummary _ _ _ => "GET"
  | OpCall.artifacts _ _ _ => "GET"
  | OpCall.retry _ _ _ => "POST"
  | OpCall.cancel _ _ _ => "POST"
  | OpCall.build _ _ _ => "POST"
  | OpCall.clearCache _ _ => "DELETE"

/- The URL each operation builds, dispatching to the per-method URL
definitions. -/
def urlOfClient (c : client) : OpCall → String
  | OpCall.me => c.meURL
  | OpCall.projects => c.projectsURL
  | OpCall.recentBuilds => c.recentBuildsURL
  | OpCall.recentBuildsForProject u p => c.recentBuildsForProjectURL u p
  | OpCall.recentBuildsForProjectBranch u p b o =>
      c.recentBuildsForProjectBranchURL u p b o
  | OpCall.buildSummary u p n => c.buildSummaryURL u p n
  | OpCall.artifacts u p n => c.artifactsURL u p n
  | OpCall.retry u p n => c.retryURL u p n
  | OpCall.cancel u p n => c.cancelURL u p n
  | OpCall.build u p b => c.buildURL u p b
  | OpCall.clearCache u p => c.clearCacheURL u p

/- The request an operation hands to the transport when
http.NewRequest succeeds: its verb, its URL, the single Accept header
set to application/json, and no body. -/
def builtReq (c : client) (op : OpCall) : Request :=
  mkReq (verbOf op) (urlOfClient c op)

/- The value each operation returns alongside the error on every one
of its failure paths: the zero value of its result struct, or the
freshly allocated empty slice make([]T, 0) for the slice-valued
operations. -/
def onErrOf : OpCall → OpResult
  | OpCall.me => OpResult.me Me.zero
  | OpCall.projects => OpResult.projects (GoSlice.mk [])
  | OpCall.recentBuilds => OpResult.builds (GoSlice.mk [])
  | OpCall.recentBuildsForProject _ _ => OpResult.builds (GoSlice.mk [])
  | OpCall.recentBuildsForProjectBranch _ _ _ _ =>
      OpResult.builds (GoSlice.mk [])
  | OpCall.buildSummary _ _ _ =>
      OpResult.detailed DetailedBuildSummary.zero
  | OpCall.artifacts _ _ _ => OpResult.artifacts (GoSlice.mk [])
  | OpCall.retry _ _ _ => OpResult.build Build.zero
  | OpCall.cancel _ _ _ => OpResult.build Build.zero
  | OpCall.build _ _ _ => OpResult.build Build.zero
  | OpCall.clearCache _ _ => OpResult.clearCache ClearCacheResponse.zero

/- Tags the output of a typed decoder with its OpResult constructor. -/
def wrapDec {α : Type} (f : α → OpResult) (r : α × Option GoError) :
    OpResult × Option GoError :=
  (f r.1, r.2)

/- The environment decoder an operation feeds the response body to,
with its output tagged. -/
def decOf (env : HttpEnv) : OpCall → String → OpResult × Option GoError
  | OpCall.me => fun s => wrapDec OpResult.me (env.decMe s)
  | OpCall.projects => fun s => wrapDec OpResult.projects (env.decProjects s)
  | OpCall.recentBuilds =>
      fun s => wrapDec OpResult.builds (env.decBuildSummaries s)
  | OpCall.recentBuildsForProject _ _ =>
      fun s => wrapDec OpResult.builds (env.decBuildSummaries s)
  | OpCall.recentBuildsForProjectBranch _ _ _ _ =>
      fun s => wrapDec OpResult.builds (env.decBuildSummaries s)
  | OpCall.buildSummary _ _ _ =>
      fun s => wrapDec OpResult.detailed (env.decDetailed s)
  | OpCall.artifacts _ _ _ =>
      fun s => wrapDec OpResult.artifacts (env.decArtifacts s)
  | OpCall.retry _ _ _ => fun s => wrapDec OpResult.build (env.decBuild s)
  | OpCall.cancel _ _ _ => fun s => wrapDec OpResult.build (env.decBuild s)
  | OpCall.build _ _ _ => fun s => wrapDec OpResult.build (env.decBuild s)
  | OpCall.clearCache _ _ =>
      fun s => wrapDec OpResult.clearCache (env.decClearCache s)

/- Query fragment the code appends for the limit option: empty when
the pointer is nil, the literal value otherwise. -/
def fragLimit : Option Int → String
  | none => ""
  | some l => "&limit=" ++ Int.repr l

/- Query fragment the code appends for the offset option. -/
def fragOffset : Option Int → String
  | none => ""
  | some o => "&offset=" ++ Int.repr o

/- Query fragment the code appends for the filter option. -/
def fragFilter : Option String → String
  | none => ""
  | some f => "&filter=" ++ f

/- Modelled from the spec, section 6: the documented path pattern of
each operation with its path parameters substituted positionally. -/
def specPath : OpCall → String
  | OpCall.me => "/me"
  | OpCall.projects => "/projects"
  | OpCall.recentBuilds => "/recent-builds"
  | OpCall.recentBuildsForProject u p => "/project/" ++ u ++ "/" ++ p
  | OpCall.recentBuildsForProjectBranch u p b _ =>
      "/project/" ++ u ++ "/" ++ p ++ "/tree/" ++ b
  | OpCall.buildSummary u p n =>
      "/project/" ++ u ++ "/" ++ p ++ "/" ++ Int.repr n
  | OpCall.artifacts u p n =>
      "/project/" ++ u ++ "/" ++ p ++ "/" ++ Int.repr n ++ "/artifacts"
  | OpCall.retry u p n =>
      "/project/" ++ u ++ "/" ++ p ++ "/" ++ Int.repr n ++ "/retry"
  | OpCall.cancel u p n =>
      "/project/" ++ u ++ "/" ++ p ++ "/" ++ Int.repr n ++ "/cancel"
  | OpCall.build u p b =>
      "/project/" ++ u ++ "/" ++ p ++ "/tree/" ++ b
  | OpCall.clearCache u p =>
      "/project/" ++ u ++ "/" ++ p ++ "/build-cache"

/- Modelled from the spec: the optional query parameters documented
for the branch-scoped recent-builds operation, appended only when
present; every other operation has none. -/
def specQueryOpts : OpCall → String
  | OpCall.recentBuildsForProjectBranch _ _ _ o =>
      fragLimit o.Limit ++ fragOffset o.Offset ++ fragFilter o.Filter
  | _ => ""

/- Modelled from the spec: the documented URL pattern of an operation,
the base host, the versioned prefix, the path with parameters
substituted positionally, the mandatory circle-token query parameter,
and any optional query parameters. -/
def specURL (token : String) (op : OpCall) : String :=
  "https://circleci.com" ++ "/api/v1" ++ specPath op
    ++ "?circle-token=" ++ token ++ specQueryOpts op

/- Environment whose transport always answers with the one given
response; used to state that the client never inspects the status
code. -/
def envWithResp (env : HttpEnv) (code : Int) (body : String) : HttpEnv :=
  { env with doResp := fun _ _ => Sum.inr { StatusCode := code, Body := body } }

/- One operation call in state-passing form.  No Go method body
assigns to the fields of its receiver, so each call hands back the
receiver it was given. -/
def runOpSt (c : client) (env : HttpEnv) (op : OpCall) :
    client × ((OpResult × Option GoError) × List Event) :=
  (c, runOp c env op)

/- Runs a sequence of operation calls, threading the client state. -/
def runSeq (c : client) (env : HttpEnv) : List OpCall → client
  | [] => c
  | op :: rest => runSeq (runOpSt c env op).1 env rest

/- Environment in which http.NewRequest always fails; used to witness
the request-construction failure path. -/
def envBuildFail : HttpEnv :=
  { buildErr := fun _ _ => some "invalid URL",
    doResp := fun _ _ => Sum.inl "not reached",
    decMe := fun _ => (Me.zero, some "not reached"),
    decProjects := fun _ => (GoSlice.nil, some "not reached"),
    decBuildSummaries := fun _ => (GoSlice.nil, some "not reached"),
    decDetailed := fun _ => (DetailedBuildSummary.zero, some "not reached"),
    decArtifacts := fun _ => (GoSlice.nil, some "not reached"),
    decBuild := fun _ => (Build.zero, some "not reached"),
    decClearCache := fun _ => (ClearCacheResponse.zero, some "not reached") }

/- Environment in which the transport round trip always fails; used to
witness the transport failure path. -/
def envSendFail : HttpEnv :=
  { envBuildFail with
    buildErr := fun _ _ => none,
    doResp := fun _ _ => Sum.inl "connection refused" }

/- Environment in which the exchange completes with status 200 but
every decoder rejects the body, leaving a partially populated value
behind, as json Decode may; used to witness the decode failure path. -/
def envDecodeFail : HttpEnv :=
  { buildErr := fun _ _ => none,
    doResp := fun _ _ => Sum.inr { StatusCode := 200, Body := "not json" },
    decMe := fun _ => ({ Me.zero with Login := "partial" }, some "unexpected EOF"),
    decProjects := fun _ => (GoSlice.nil, some "unexpected EOF"),
    decBuildSummaries :=
      fun _ => (GoSlice.mk [BuildSummary.zero], some "unexpected EOF"),
    decDetailed :=
      fun _ => (DetailedBuildSummary.zero, some "unexpected EOF"),
    decArtifacts := fun _ => (GoSlice.nil, some "unexpected EOF"),
    decBuild :=
      fun _ => ({ Build.zero with Status := "partial" }, some "unexpected EOF"),
    decClearCache :=
      fun _ => (ClearCacheResponse.zero, some "unexpected EOF") }

/- Environment in which every decoder accepts the body; used to
witness the success path and the absence of status-code checks. -/
def envDecodeOk : HttpEnv :=
  { buildErr := fun _ _ => none,
    doResp := fun _ _ => Sum.inr { StatusCode := 200, Body := "{}" },
    decMe := fun _ => ({ Me.zero with Login := "alice" }, none),
    decProjects := fun _ => (GoSlice.mk [], none),
    decBuildSummaries := fun _ => (GoSlice.mk [], none),
    decDetailed := fun _ => (DetailedBuildSummary.zero, none),
    decArtifacts := fun _ => (GoSlice.mk [], none),
    decBuild := fun _ => ({ Build.zero with Status := "queued" }, none),
    decClearCache :=
      fun _ => ({ Status := "build dependency caches deleted" }, none) }

/- String append is associative. -/
theorem str_assoc (a b c : String) : a ++ b ++ c = a ++ (b ++ c) := by
  cases a with | mk la =>
  cases b with | mk lb =>
  cases c with | mk lc =>
  show String.mk ((la ++ lb) ++ lc) = String.mk (la ++ (lb ++ lc))
  rw [List.append_assoc]

/- The empty string is right neutral for append. -/
theorem str_append_empty (a : String) : a ++ "" = a := by
  cases a with | mk la =>
  show String.mk (la ++ []) = String.mk la
  rw [List.append_nil]

/- Behaviour of the shared exchange when http.NewRequest fails. -/
theorem exchange_buildFail {α : Type} (env : HttpEnv) (hh : Nat)
    (m u : String) (onErr : α) (dec : String → α × Option GoError)
    (e : GoError) (h : env.buildErr m u = some e) :
    exchange env hh m u onErr dec = ((onErr, some e), []) := by
  unfold exchange
  simp only [h]

/- Behaviour of the shared exchange when the transport fails. -/
theorem exchange_sendFail {α : Type} (env : HttpEnv) (hh : Nat)
    (m u : String) (onErr : α) (dec : String → α × Option GoError)
    (e : GoError) (h1 : env.buildErr m u = none)
    (h2 : env.doResp hh (mkReq m u) = Sum.inl e) :
    exchange env hh m u onErr dec =
      ((onErr, some e), [Event.sent (mkReq m u)]) := by
  unfold exchange
  simp only [h1, h2]

/- Behaviour of the shared exchange when the body does not decode:
the possibly partially populated decoder output is dropped and onErr
is returned. -/
theorem exchange_decodeFail {α : Type} (env : HttpEnv) (hh : Nat)
    (m u : String) (onErr : α) (dec : String → α × Option GoError)
    (resp : Response) (e : GoError) (h1 : env.buildErr m u = none)
    (h2 : env.doResp hh (mkReq m u) = Sum.inr resp)
    (h3 : (dec resp.Body).2 = some e) :
    exchange env hh m u onErr dec =
      ((onErr, some e),
       [Event.sent (mkReq m u), Event.readBody resp.Body]) := by
  unfold exchange
  simp only [h1, h2]
  rcases hdec : dec resp.Body with ⟨v, oe⟩
  rw [hdec] at h3
  simp only at h3
  subst h3
  rfl

/- Behaviour of the shared exchange when the body decodes. -/
theorem exchange_decodeOk {α : Type} (env : HttpEnv) (hh : Nat)
    (m u : String) (onErr : α) (dec : String → α × Option GoError)
    (resp : Response) (v : α) (h1 : env.buildErr m u = none)
    (h2 : env.doResp hh (mkReq m u) = Sum.inr resp)
    (h3 : dec resp.Body = (v, none)) :
    exchange env hh m u onErr dec =
      ((v, none),
       [Event.sent (mkReq m u), Event.readBody resp.Body]) := by
  unfold exchange
  simp only [h1, h2, h3]

/- Whenever http.NewRequest succeeds, the exchange sends exactly one
request through the transport, whatever happens afterwards. -/
theorem exchange_sent {α : Type} (env : HttpEnv) (hh : Nat)
    (m u : String) (onErr : α) (dec : String → α × Option GoError)
    (h : env.buildErr m u = none) :
    sentRequests (exchange env hh m u onErr dec).2 = [mkReq m u] := by
  unfold exchange
  simp only [h]
  cases hdo : env.doResp hh (mkReq m u) with
  | inl e => rfl
  | inr resp =>
    rcases hdec : dec resp.Body with ⟨v, oe⟩
    cases oe <;> simp only [hdec, sentRequests]

/- Whenever an exchange ends in an error, the value it returns
alongside is the fixed onErr value. -/
theorem exchange_err_value {α : Type} (env : HttpEnv) (hh : Nat)
    (m u : String) (onErr : α) (dec : String → α × Option GoError)
    (e : GoError)
    (h : (exchange env hh m u onErr dec).1.2 = some e) :
    (exchange env hh m u onErr dec).1.1 = onErr := by
  unfold exchange at h ⊢
  rcases hbe : env.buildErr m u with _ | e2
  · simp only [hbe] at h ⊢
    rcases hdo : env.doResp hh (mkReq m u) with e2 | resp
    · simp only [hdo] at h ⊢
    · simp only [hdo] at h ⊢
      rcases hdec : dec resp.Body with ⟨v, _ | e2⟩
      · simp only [hdec] at h ⊢
        exact Option.noConfusion h
      · simp only [hdec] at h ⊢
  · simp only [hbe] at h ⊢

/- The code URL of every operation equals the documented pattern. -/
theorem url_code_eq_spec (c : client) (op : OpCall) :
    urlOfClient c op = specURL c.token op := by
  cases op with
  | me =>
    simp only [urlOfClient, client.meURL, client.endpoint, specURL,
      specPath, specQueryOpts, str_append_empty, str_assoc]
    try rfl
  | projects =>
    simp only [urlOfClient, client.projectsURL, client.endpoint, specURL,
      specPath, specQueryOpts, str_append_empty, str_assoc]
    try rfl
  | recentBuilds =>
    simp only [urlOfClient, client.recentBuildsURL, client.endpoint,
      specURL, specPath, specQueryOpts, str_append_empty, str_assoc]
    try rfl
  | recentBuildsForProject u p =>
    simp only [urlOfClient, client.recentBuildsForProjectURL,
      client.endpoint, specURL, specPath, specQueryOpts,
      str_append_empty, str_assoc]
    try rfl
  | recentBuildsForProjectBranch u p b o =>
    obtain ⟨L, O, F⟩ := o
    cases L <;> cases O <;> cases F <;>
      simp only [urlOfClient, client.recentBuildsForProjectBranchURL,
        client.endpoint, specURL, specPath, specQueryOpts, fragLimit,
        fragOffset, fragFilter, str_append_empty, str_assoc] <;>
      try rfl
  | buildSummary u p n =>
    simp only [urlOfClient, client.buildSummaryURL, client.endpoint,
      specURL, specPath, specQueryOpts, str_append_empty, str_assoc]
    try rfl
  | artifacts u p n =>
    simp only [urlOfClient, client.artifactsURL, client.endpoint,
      specURL, specPath, specQueryOpts, str_append_empty, str_assoc]
    try rfl
  | retry u p n =>
    simp only [urlOfClient, client.retryURL, client.endpoint, specURL,
      specPath, specQueryOpts, str_append_empty, str_assoc]
    try rfl
  | cancel u p n =>
    simp only [urlOfClient, client.cancelURL, client.endpoint, specURL,
      specPath, specQueryOpts, str_append_empty, str_assoc]
    try rfl
  | build u p b =>
    simp only [urlOfClient, client.buildURL, client.endpoint, specURL,
      specPath, specQueryOpts, str_append_empty, str_assoc]
    try rfl
  | clearCache u p =>
    simp only [urlOfClient, client.clearCacheURL, client.endpoint,
      specURL, specPath, specQueryOpts, str_append_empty, str_assoc]
    try rfl

/- Tagged version of exchange_buildFail. -/
theorem wrap_buildFail {α : Type} (f : α → OpResult) (env : HttpEnv)
    (hh : Nat) (m u : String) (z : α)
    (dec : String → α × Option GoError) (e : GoError)
    (h : env.buildErr m u = some e) :
    wrapResult f (exchange env hh m u z dec) = ((f z, some e), []) := by
  rw [exchange_buildFail env hh m u z dec e h]
  rfl

/- Tagged version of exchange_sendFail. -/
theorem wrap_sendFail {α : Type} (f : α → OpResult) (env : HttpEnv)
    (hh : Nat) (m u : String) (z : α)
    (dec : String → α × Option GoError) (e : GoError)
    (h1 : env.buildErr m u = none)
    (h2 : env.doResp hh (mkReq m u) = Sum.inl e) :
    wrapResult f (exchange env hh m u z dec) =
      ((f z, some e), [Event.sent (mkReq m u)]) := by
  rw [exchange_sendFail env hh m u z dec e h1 h2]
  rfl

/- Tagged version of exchange_decodeFail. -/
theorem wrap_decodeFail {α : Type} (f : α → OpResult) (env : HttpEnv)
    (hh : Nat) (m u : String) (z : α)
    (dec : String → α × Option GoError) (resp : Response) (e : GoError)
    (h1 : env.buildErr m u = none)
    (h2 : env.doResp hh (mkReq m u) = Sum.inr resp)
    (h3 : (dec resp.Body).2 = some e) :
    wrapResult f (exchange env hh m u z dec) =
      ((f z, some e),
       [Event.sent (mkReq m u), Event.readBody resp.Body]) := by
  rw [exchange_decodeFail env hh m u z dec resp e h1 h2 h3]
  rfl

/- Tagged version of exchange_decodeOk. -/
theorem wrap_decodeOk {α : Type} (f : α → OpResult) (env : HttpEnv)
    (hh : Nat) (m u : String) (z : α)
    (dec : String → α × Option GoError) (resp : Response) (v : α)
    (h1 : env.buildErr m u = none)
    (h2 : env.doResp hh (mkReq m u) = Sum.inr resp)
    (h3 : dec resp.Body = (v, none)) :
    wrapResult f (exchange env hh m u z dec) =
      ((f v, none),
       [Event.sent (mkReq m u), Event.readBody resp.Body]) := by
  rw [exchange_decodeOk env hh m u z dec resp v h1 h2 h3]
  rfl

/- Whenever request construction succeeds, every operation sends
exactly one request, the one built from its verb and URL. -/
theorem runOp_sent (c : client) (env : HttpEnv) (op : OpCall)
    (h : env.buildErr (verbOf op) (urlOfClient c op) = none) :
    sentRequests (runOp c env op).2 = [builtReq c op] := by
  cases op with
  | me => exact exchange_sent env c.http "GET" c.meURL Me.zero env.decMe h
  | projects =>
    exact exchange_sent env c.http "GET" c.projectsURL (GoSlice.mk [])
      env.decProjects h
  | recentBuilds =>
    exact exchange_sent env c.http "GET" c.recentBuildsURL (GoSlice.mk [])
      env.decBuildSummaries h
  | recentBuildsForProject u p =>
    exact exchange_sent env c.http "GET"
      (c.recentBuildsForProjectURL u p) (GoSlice.mk [])
      env.decBuildSummaries h
  | recentBuildsForProjectBranch u p b o =>
    exact exchange_sent env c.http "GET"
      (c.recentBuildsForProjectBranchURL u p b o) (GoSlice.mk [])
      env.decBuildSummaries h
  | buildSummary u p n =>
    exact exchange_sent env c.http "GET" (c.buildSummaryURL u p n)
      DetailedBuildSummary.zero env.decDetailed h
  | artifacts u p n =>
    exact exchange_sent env c.http "GET" (c.artifactsURL u p n)
      (GoSlice.mk []) env.decArtifacts h
  | retry u p n =>
    exact exchange_sent env c.http "POST" (c.retryURL u p n) Build.zero
      env.decBuild h
  | cancel u p n =>
    exact exchange_sent env c.http "POST" (c.cancelURL u p n) Build.zero
      env.decBuild h
  | build u p b =>
    exact exchange_sent env c.http "POST" (c.buildURL u p b) Build.zero
      env.decBuild h
  | clearCache u p =>
    exact exchange_sent env c.http "DELETE" (c.clearCacheURL u p)
      ClearCacheResponse.zero env.decClearCache h

/-- C1: for every operation, given a fixed token and fixed path
parameters, the constructed request URL is deterministic and equals
the documented pattern exactly: the base host https://circleci.com,
the versioned prefix /api/v1, the operation's path with the path
parameters substituted positionally, and the authentication token
appended as a mandatory circle-token query parameter (followed by the
documented optional query parameters where applicable).  Whenever
request construction succeeds, the one request the operation sends
carries exactly the URL specURL built from the spec's documented
pattern. -/
theorem claim_url_pattern (c : client) (env : HttpEnv) (op : OpCall)
    (h : env.buildErr (verbOf op) (urlOfClient c op) = none) :
    (sentRequests (runOp c env op).2).map Request.URL =
      [specURL c.token op] := by
  rw [runOp_sent c env op h]
  have hurl : (builtReq c op).URL = urlOfClient c op := rfl
  simp only [List.map_cons, List.map_nil, hurl, url_code_eq_spec]

/-- Witness for C1 at a concrete token, operation and environment. -/
theorem claim_url_pattern_witness :
    (sentRequests (runOp (New "tok") envDecodeFail
        (OpCall.recentBuildsForProjectBranch "segmentio"
          "analytics-android" "master"
          { Limit := some 2, Offset := some 1,
            Filter := some "completed" })).2).map Request.URL =
      [specURL "tok"
        (OpCall.recentBuildsForProjectBranch "segmentio"
          "analytics-android" "master"
          { Limit := some 2, Offset := some 1,
            Filter := some "completed" })] :=
  claim_url_pattern (New "tok") envDecodeFail
    (OpCall.recentBuildsForProjectBranch "segmentio" "analytics-android"
      "master"
      { Limit := some 2, Offset := some 1, Filter := some "completed" })
    rfl

/-- C2: for the branch-scoped recent-builds operation, for every
combination of the optional limit, offset and filter parameters, the
constructed URL is the base URL followed by one fragment per
parameter, where the fragment of an unset parameter is the empty
string (the parameter is entirely absent) and the fragment of a set
parameter is the ampersand, the parameter name and the literal value
provided, appended exactly once. -/
theorem claim_branch_options (c : client) (u p b : String)
    (o : RecentBuildsOptions) :
    c.recentBuildsForProjectBranchURL u p b o =
      c.endpoint ("/project/" ++ u ++ "/" ++ p ++ "/tree/" ++ b)
        ++ fragLimit o.Limit ++ fragOffset o.Offset
        ++ fragFilter o.Filter ∧
    fragLimit none = "" ∧
    (∀ l : Int, fragLimit (some l) = "&limit=" ++ Int.repr l) ∧
    fragOffset none = "" ∧
    (∀ v : Int, fragOffset (some v) = "&offset=" ++ Int.repr v) ∧
    fragFilter none = "" ∧
    (∀ f : String, fragFilter (some f) = "&filter=" ++ f) := by
  refine ⟨?_, rfl, fun _ => rfl, rfl, fun _ => rfl, rfl, fun _ => rfl⟩
  obtain ⟨L, O, F⟩ := o
  cases L <;> cases O <;> cases F <;>
    simp only [client.recentBuildsForProjectBranchURL, fragLimit,
      fragOffset, fragFilter, str_append_empty, str_assoc]

/-- C3: for every operation, when the response body fails to decode,
the operation returns the decode error together with the fixed
zero-valued result of the operation (the zero struct, or the freshly
allocated empty slice for the slice-valued operations); the possibly
partially populated decoder output is never returned. -/
theorem claim_decode_failure_zero (c : client) (env : HttpEnv)
    (op : OpCall) (resp : Response) (e : GoError)
    (h1 : env.buildErr (verbOf op) (urlOfClient c op) = none)
    (h2 : env.doResp c.http (builtReq c op) = Sum.inr resp)
    (h3 : (decOf env op resp.Body).2 = some e) :
    runOp c env op =
      ((onErrOf op, some e),
       [Event.sent (builtReq c op), Event.readBody resp.Body]) := by
  cases op <;>
    exact wrap_decodeFail _ env c.http _ _ _ _ resp e h1 h2 h3

/-- Witness for C3: the decoder leaves a partially populated Me value
behind, yet the operation returns the zero value with the error. -/
theorem claim_decode_failure_zero_witness :
    runOp (New "tok") envDecodeFail OpCall.me =
      ((onErrOf OpCall.me, some "unexpected EOF"),
       [Event.sent (builtReq (New "tok") OpCall.me),
        Event.readBody "not json"]) :=
  claim_decode_failure_zero (New "tok") envDecodeFail OpCall.me
    { StatusCode := 200, Body := "not json" } "unexpected EOF"
    rfl rfl rfl

/-- C4: for every operation, when the request could not be built or
could not be sent, the operation returns the transport error together
with the fixed zero-valued result, and its trace contains no body
read: no response body is read or decoded. -/
theorem claim_transport_failure_zero (c : client) (env : HttpEnv)
    (op : OpCall) (e : GoError)
    (h : env.buildErr (verbOf op) (urlOfClient c op) = some e ∨
      (env.buildErr (verbOf op) (urlOfClient c op) = none ∧
       env.doResp c.http (builtReq c op) = Sum.inl e)) :
    (runOp c env op).1 = (onErrOf op, some e) ∧
    ∀ b, Event.readBody b ∉ (runOp c env op).2 := by
  have key : runOp c env op = ((onErrOf op, some e), []) ∨
      runOp c env op =
        ((onErrOf op, some e), [Event.sent (builtReq c op)]) := by
    rcases h with h | ⟨h1, h2⟩
    · exact Or.inl
        (by cases op <;> exact wrap_buildFail _ env c.http _ _ _ _ e h)
    · exact Or.inr
        (by cases op <;> exact wrap_sendFail _ env c.http _ _ _ _ e h1 h2)
  rcases key with k | k <;> rw [k]
  · exact ⟨rfl, fun b hb => by simp at hb⟩
  · exact ⟨rfl, fun b hb => by simp at hb⟩

/-- Witness for C4 on the transport-failure side. -/
theorem claim_transport_failure_zero_witness :
    (runOp (New "tok") envSendFail OpCall.projects).1 =
      (onErrOf OpCall.projects, some "connection refused") ∧
    ∀ b, Event.readBody b ∉
      (runOp (New "tok") envSendFail OpCall.projects).2 :=
  claim_transport_failure_zero (New "tok") envSendFail OpCall.projects
    "connection refused" (Or.inr ⟨rfl, rfl⟩)

/-- C5: for every operation, the response status code is never
inspected: whatever status code the transport answers with, the body
is decoded unconditionally, and when it decodes the operation returns
it as a success, so a non-2xx response with a well-formed body is
indistinguishable from a genuine success.  The conclusion does not
depend on the quantified status code at all. -/
theorem claim_status_never_inspected (c : client) (env : HttpEnv)
    (op : OpCall) (code : Int) (bdy : String)
    (h1 : env.buildErr (verbOf op) (urlOfClient c op) = none)
    (h2 : (decOf env op bdy).2 = none) :
    runOp c (envWithResp env code bdy) op =
      (((decOf env op bdy).1, none),
       [Event.sent (builtReq c op), Event.readBody bdy]) := by
  cases op <;>
    exact wrap_decodeOk _ (envWithResp env code bdy) c.http _ _ _ _
      { StatusCode := code, Body := bdy } _ h1 rfl (Prod.ext rfl h2)

/-- Witness for C5 at status code 500: the well-formed body is
returned as a success. -/
theorem claim_status_never_inspected_witness :
    runOp (New "tok") (envWithResp envDecodeOk 500 "irrelevant")
        (OpCall.clearCache "u" "p") =
      (((decOf envDecodeOk (OpCall.clearCache "u" "p") "irrelevant").1,
        none),
       [Event.sent (builtReq (New "tok") (OpCall.clearCache "u" "p")),
        Event.readBody "irrelevant"]) :=
  claim_status_never_inspected (New "tok") envDecodeOk
    (OpCall.clearCache "u" "p") 500 "irrelevant" rfl rfl

/-- C6: every operation issues exactly one HTTP request whenever
request construction succeeds, with the fixed verb of the operation
(GET for the read operations, POST for Retry, Cancel and Build, DELETE
for ClearCache, as defined by verbOf), the Accept header set to
application/json, and no request body. -/
theorem claim_single_request_fixed_verb (c : client) (env : HttpEnv)
    (op : OpCall)
    (h : env.buildErr (verbOf op) (urlOfClient c op) = none) :
    sentRequests (runOp c env op).2 = [builtReq c op] ∧
    (builtReq c op).Method = verbOf op ∧
    (builtReq c op).Header = [("Accept", "application/json")] ∧
    (builtReq c op).Body = none := by
  exact ⟨runOp_sent c env op h, rfl, rfl, rfl⟩

/-- Witness for C6 at the Retry operation. -/
theorem claim_single_request_fixed_verb_witness :
    sentRequests
        (runOp (New "tok") envSendFail (OpCall.retry "u" "p" 7)).2 =
      [builtReq (New "tok") (OpCall.retry "u" "p" 7)] ∧
    (builtReq (New "tok") (OpCall.retry "u" "p" 7)).Method =
      verbOf (OpCall.retry "u" "p" 7) ∧
    (builtReq (New "tok") (OpCall.retry "u" "p" 7)).Header =
      [("Accept", "application/json")] ∧
    (builtReq (New "tok") (OpCall.retry "u" "p" 7)).Body = none :=
  claim_single_request_fixed_verb (New "tok") envSendFail
    (OpCall.retry "u" "p" 7) rfl

/-- C7: the client state consists only of the token and transport
handle fixed at construction, and no operation modifies either: after
any sequence of operation calls, the client's token and transport
handle equal the values set by New. -/
theorem claim_client_state_immutable (token : String) (env : HttpEnv)
    (ops : List OpCall) :
    (runSeq (New token) env ops).token = token ∧
    (runSeq (New token) env ops).http = defaultHTTPClient := by
  have key : ∀ (l : List OpCall) (c : client), runSeq c env l = c := by
    intro l
    induction l with
    | nil => intro c; rfl
    | cons op rest ih => intro c; exact ih c
  rw [key]
  exact ⟨rfl, rfl⟩

/-- C8: every failure of a list-returning operation, whether request
construction, transport or decode, returns the freshly allocated empty
slice make of length 0 alongside the error, which is not the nil
slice. -/
theorem claim_list_ops_empty_on_failure (c : client) (env : HttpEnv)
    (e : GoError) (u p b : String) (o : RecentBuildsOptions) (n : Int) :
    ((client.Projects c env).1.2 = some e →
      (client.Projects c env).1.1 = GoSlice.mk []) ∧
    ((client.RecentBuilds c env).1.2 = some e →
      (client.RecentBuilds c env).1.1 = GoSlice.mk []) ∧
    ((client.RecentBuildsForProject c env u p).1.2 = some e →
      (client.RecentBuildsForProject c env u p).1.1 = GoSlice.mk []) ∧
    ((client.RecentBuildsForProjectBranch c env u p b o).1.2 = some e →
      (client.RecentBuildsForProjectBranch c env u p b o).1.1 =
        GoSlice.mk []) ∧
    ((client.Artifacts c env u p n).1.2 = some e →
      (client.Artifacts c env u p n).1.1 = GoSlice.mk []) ∧
    (∀ α : Type, GoSlice.isNil (GoSlice.mk ([] : List α)) = false ∧
      GoSlice.length (GoSlice.mk ([] : List α)) = 0) := by
  refine ⟨?_, ?_, ?_, ?_, ?_, fun α => ⟨rfl, rfl⟩⟩ <;>
    exact fun h => exchange_err_value env c.http _ _ _ _ e h

/-- Witness for C8 under a transport failure. -/
theorem claim_list_ops_empty_on_failure_witness :
    (client.Projects (New "tok") envSendFail).1.1 = GoSlice.mk [] ∧
    (client.RecentBuilds (New "tok") envSendFail).1.1 = GoSlice.mk [] ∧
    (client.RecentBuildsForProject (New "tok") envSendFail
        "u" "p").1.1 = GoSlice.mk [] ∧
    (client.RecentBuildsForProjectBranch (New "tok") envSendFail
        "u" "p" "b"
        { Limit := none, Offset := none, Filter := none }).1.1 =
      GoSlice.mk [] ∧
    (client.Artifacts (New "tok") envSendFail "u" "p" 3).1.1 =
      GoSlice.mk [] := by
  have T := claim_list_ops_empty_on_failure (New "tok") envSendFail
    "connection refused" "u" "p" "b"
    { Limit := none, Offset := none, Filter := none } 3
  exact ⟨T.1 rfl, T.2.1 rfl, T.2.2.1 rfl, T.2.2.2.1 rfl,
    T.2.2.2.2.1 rfl⟩

/-- C9: URL construction performs no escaping of path parameters and
is not injective: username a/b with project c and username a with
project b/c produce the identical URL, and the whole
RecentBuildsForProject operation behaves identically on the two input
pairs. -/
theorem claim_url_not_injective (c : client) (env : HttpEnv) :
    client.RecentBuildsForProject c env "a/b" "c" =
      client.RecentBuildsForProject c env "a" "b/c" ∧
    c.recentBuildsForProjectURL "a/b" "c" =
      c.recentBuildsForProjectURL "a" "b/c" :=
  ⟨rfl, rfl⟩

/-- C10: RecentBuildsForProjectBranch with all three options unset
constructs exactly the same URL as the trigger-build operation Build
with the same arguments; the requests the two operations send differ
only in the HTTP verb, GET versus POST. -/
theorem claim_build_same_url_different_verb (c : client)
    (env : HttpEnv) (u p b : String)
    (h1 : env.buildErr "GET"
        (c.recentBuildsForProjectBranchURL u p b
          { Limit := none, Offset := none, Filter := none }) = none)
    (h2 : env.buildErr "POST" (c.buildURL u p b) = none) :
    c.recentBuildsForProjectBranchURL u p b
        { Limit := none, Offset := none, Filter := none } =
      c.buildURL u p b ∧
    sentRequests (client.RecentBuildsForProjectBranch c env u p b
        { Limit := none, Offset := none, Filter := none }).2 =
      [mkReq "GET" (c.buildURL u p b)] ∧
    sentRequests (client.Build c env u p b).2 =
      [mkReq "POST" (c.buildURL u p b)] := by
  refine ⟨rfl, ?_, ?_⟩
  · exact exchange_sent env c.http _ _ _ _ h1
  · exact exchange_sent env c.http _ _ _ _ h2

/-- Witness for C10 at concrete arguments. -/
theorem claim_build_same_url_different_verb_witness :
    (New "tok").recentBuildsForProjectBranchURL "u" "p" "b"
        { Limit := none, Offset := none, Filter := none } =
      (New "tok").buildURL "u" "p" "b" ∧
    sentRequests (client.RecentBuildsForProjectBranch (New "tok")
        envDecodeOk "u" "p" "b"
        { Limit := none, Offset := none, Filter := none }).2 =
      [mkReq "GET" ((New "tok").buildURL "u" "p" "b")] ∧
    sentRequests (client.Build (New "tok") envDecodeOk "u" "p" "b").2 =
      [mkReq "POST" ((New "tok").buildURL "u" "p" "b")] :=
  claim_build_same_url_different_verb (New "tok") envDecodeOk
    "u" "p" "b" rfl rfl
